import Mathlib

/-!
Shallow embedding of the credential validation engine of src/secure_auth.c
(constants and error codes from src/secure_auth.h).  C strings are modelled
as `List Char` (one byte per character, ASCII range), machine integers as
`Nat` or `Int` with explicit reduction modulo two to the word size where an
overflow is possible, byte buffers as `List Nat` of byte values.  External
effects are passed in explicitly: the password database file is a value
(`none` when fopen fails), the current time, and the contents of
uninitialized malloc memory are parameters of the functions that read them.
-/

namespace SecureAuth

/-- Constant MAX_USERNAME_LENGTH from secure_auth.h. -/
def MAX_USERNAME_LENGTH : Nat := 32

/-- Constant MAX_PASSWORD_LENGTH from secure_auth.h. -/
def MAX_PASSWORD_LENGTH : Nat := 64

/-- Constant SALT_SIZE from secure_auth.h. -/
def SALT_SIZE : Nat := 32

/-- Constant HASH_SIZE from secure_auth.h. -/
def HASH_SIZE : Nat := 32

/-- Constant DATA_SIZE from secure_auth.h. -/
def DATA_SIZE : Nat := 1024

/-- Constant AUTH_MEMORY_CANARY from secure_auth.c. -/
def AUTH_MEMORY_CANARY : Nat := 0xDEADBEEF

/-- The AuthErrorCode enumeration of secure_auth.h. -/
inductive AuthErrorCode where
  | AUTH_SUCCESS
  | AUTH_ERROR_NULL_POINTER
  | AUTH_ERROR_INVALID_INPUT
  | AUTH_ERROR_FILE_ACCESS
  | AUTH_ERROR_CRYPTO
  | AUTH_ERROR_BUFFER_OVERFLOW
  | AUTH_ERROR_AUTH_FAILED
  | AUTH_ERROR_RATE_LIMIT
  | AUTH_ERROR_SYSTEM
  | AUTH_ERROR_MEMORY
  | AUTH_ERROR_PERMISSION
  | AUTH_ERROR_SECURITY
  | AUTH_ERROR_INITIALIZATION
  deriving DecidableEq, Repr

/-- The AuthConfig structure of secure_auth.h (the log_callback function
pointer is omitted: no modelled claim observes logging). -/
structure AuthConfig where
  password_db_path : List Char
  max_login_attempts : Nat
  login_timeout : Nat
  enable_security_checks : Bool
  deriving DecidableEq, Repr

/-- The RateLimit record of secure_auth.c (the pthread mutex field is
omitted: the embedding is of the sequential behavior under the locks). -/
structure RateLimit where
  username : List Char
  last_attempt : Int
  attempt_count : Nat
  deriving DecidableEq, Repr

/-- The HashData record of secure_auth.c (the canary field is never read by
any modelled code path and is omitted). -/
structure HashData where
  salt : List Nat
  hash : List Nat
  deriving DecidableEq, Repr

/-- The global g_auth_state of secure_auth.c restricted to the fields the
modelled operations read: the initialized flag, the configuration and the
rate-limit table (rate_limit_count is the length of the list). -/
structure AuthState where
  initialized : Bool
  config : AuthConfig
  rate_limits : List RateLimit
  deriving DecidableEq, Repr

/-- Byte values of a C string, one byte per ASCII character. -/
def strBytes (s : List Char) : List Nat := s.map Char.toNat

/-- Reading a fixed-size C byte buffer of n bytes: the first n list entries,
with zero for bytes beyond the end of the modelled contents. -/
def padTo (n : Nat) (l : List Nat) : List Nat :=
  l.take n ++ List.replicate (n - l.length) 0

/-- Value of a single hexadecimal digit character, as accepted by the
sscanf conversion of a hex field. -/
def hexDigitVal (c : Char) : Option Nat :=
  if '0' ≤ c ∧ c ≤ '9' then some (c.toNat - '0'.toNat)
  else if 'a' ≤ c ∧ c ≤ 'f' then some (c.toNat - 'a'.toNat + 10)
  else if 'A' ≤ c ∧ c ≤ 'F' then some (c.toNat - 'A'.toNat + 10)
  else none

/-- Whitespace characters skipped by a sscanf numeric conversion. -/
def isSpaceChar (c : Char) : Bool :=
  c == ' ' || c == '\t' || c == '\n' || c == '\r' || c == '\x0b' || c == '\x0c'

/-- Model of sscanf(p, "%2hhx", out) reading at the given suffix of the
line: skip leading whitespace, then convert at most two hexadecimal digit
characters; the conversion fails when no hexadecimal digit follows (sign
and 0x prefixes do not occur in the store format and are not modelled). -/
def sscanf_2hhx (cs : List Char) : Option Nat :=
  match (cs.dropWhile isSpaceChar) with
  | [] => none
  | c1 :: rest =>
    match hexDigitVal c1 with
    | none => none
    | some d1 =>
      match rest with
      | [] => some d1
      | c2 :: _ =>
        match hexDigitVal c2 with
        | none => some d1
        | some d2 => some (16 * d1 + d2)

/-- The loops of read_password_file that call sscanf(salt_pos + 2 * i,
"%2hhx", ...) for i below n, failing (goto cleanup) when any conversion
fails. -/
def parse_hex_pairs : List Char → Nat → Option (List Nat)
  | _, 0 => some []
  | cs, n + 1 =>
    match sscanf_2hhx cs, parse_hex_pairs (cs.drop 2) n with
    | some b, some rest => some (b :: rest)
    | _, _ => none

/-- Model of sscanf(line, "%31[^:]", stored_username): at most 31 leading
characters of the line that are not a colon; the conversion fails (returns
a count other than one) when the set matches no character at all. -/
def scan_username (line : List Char) : Option (List Char) :=
  let field := (line.takeWhile fun c => c != ':').take 31
  if field.isEmpty then none else some field

/-- The body of the matching-line branch of read_password_file: strchr for
the first colon (break when absent), the minimal-length check on the
remainder of the line, then the two hex-parsing loops; any failure is the
break or goto cleanup path, which leaves the result AUTH_ERROR_AUTH_FAILED. -/
def parse_matched_line (line : List Char) : Option HashData :=
  match line.dropWhile (fun c => c != ':') with
  | [] => none
  | _ :: afterColon =>
    if afterColon.length + 1 < 2 * SALT_SIZE + 2 * HASH_SIZE + 2 then none
    else
      match parse_hex_pairs afterColon SALT_SIZE,
            parse_hex_pairs (afterColon.drop (2 * SALT_SIZE + 1)) HASH_SIZE with
      | some salt, some hash => some ⟨salt, hash⟩
      | _, _ => none

/-- read_password_file of secure_auth.c.  The store parameter is the
fopen result: none when the file cannot be opened (AUTH_ERROR_FILE_ACCESS),
otherwise the list of lines fgets yields (each line assumed shorter than
the 256-byte line buffer, as every well-formed record is).  The fgets loop
skips lines whose username field does not scan or compare equal, and stops
at the first line where it does. -/
def read_password_file (store : Option (List (List Char))) (username : List Char) :
    AuthErrorCode × Option HashData :=
  match store with
  | none => (AuthErrorCode.AUTH_ERROR_FILE_ACCESS, none)
  | some lines =>
    match lines.find? (fun l => scan_username l == some username) with
    | none => (AuthErrorCode.AUTH_ERROR_AUTH_FAILED, none)
    | some l =>
      match parse_matched_line l with
      | none => (AuthErrorCode.AUTH_ERROR_AUTH_FAILED, none)
      | some hd => (AuthErrorCode.AUTH_SUCCESS, some hd)

/-- compute_hash of secure_auth.c: the SHA-256 digest of the SALT_SIZE-byte
salt buffer followed by the password bytes.  The digest primitive itself
(OpenSSL EVP with EVP_sha256) is a parameter of the embedding; the EVP
error returns arise only from internal library failures and are not
modelled (per the spec, compute fails only when the primitive itself
reports an internal error). -/
def compute_hash (sha256 : List Nat → List Nat) (password : List Char) (salt : List Nat) :
    List Nat :=
  sha256 (padTo SALT_SIZE salt ++ strBytes password)

/-- Modelled from the spec: CRYPTO_memcmp, the OpenSSL constant-time
comparison primitive called by auth_validate_user, is not part of src/.
It is modelled from the spec words - a constant-time equality check that
must not short-circuit on the first differing byte: the or-accumulation
of the xor of every one of the n byte pairs. -/
def CRYPTO_memcmp (a b : List Nat) (n : Nat) : Nat :=
  ((List.range n).map fun i => a.getD i 0 ^^^ b.getD i 0).foldl (fun x y => x ||| y) 0

/-- Instrumented form of CRYPTO_memcmp that also counts the byte positions
the comparison examines, to state that the count does not depend on the
buffer contents. -/
def CRYPTO_memcmp_steps (a b : List Nat) (n : Nat) : Nat × Nat :=
  (List.range n).foldl (fun acc i => (acc.1 ||| (a.getD i 0 ^^^ b.getD i 0), acc.2 + 1)) (0, 0)

/-- The decision block of validate_rate_limit once a RateLimit entry is at
hand (the body of the if (limit) block): throttle when the elapsed time
since last_attempt is below login_timeout and attempt_count has reached
max_login_attempts, otherwise increment attempt_count (an unsigned int,
hence modulo two to the 32) and stamp last_attempt with the current time.
time_t subtraction is Int subtraction; the comparison against the unsigned
login_timeout promotes it to the signed 64-bit difference type. -/
def rl_decide (cfg : AuthConfig) (now : Int) (e : RateLimit) : AuthErrorCode × RateLimit :=
  if now - e.last_attempt < (cfg.login_timeout : Int) ∧
      e.attempt_count ≥ cfg.max_login_attempts then
    (AuthErrorCode.AUTH_ERROR_RATE_LIMIT, e)
  else
    (AuthErrorCode.AUTH_SUCCESS,
      { e with attempt_count := (e.attempt_count + 1) % 2 ^ 32, last_attempt := now })

/-- The search loop of validate_rate_limit: the first entry whose username
compares equal (strcmp) is updated in place by the decision block; none
when no entry matches. -/
def rl_scan (cfg : AuthConfig) (now : Int) (username : List Char) :
    List RateLimit → Option (AuthErrorCode × List RateLimit)
  | [] => none
  | e :: rest =>
    if e.username = username then
      some ((rl_decide cfg now e).1, (rl_decide cfg now e).2 :: rest)
    else
      match rl_scan cfg now username rest with
      | none => none
      | some (c, rest2) => some (c, e :: rest2)

/-- validate_rate_limit of secure_auth.c.  When no entry matches and the
table holds fewer than 1000 entries, a new entry is appended with the
username truncated by strncpy to 31 characters, attempt_count zero and
last_attempt left as the uninitialized malloc memory (the uninit
parameter), and the decision block then runs on it; when the table is full
and no entry matches, the result is AUTH_SUCCESS with no entry created. -/
def validate_rate_limit (cfg : AuthConfig) (entries : List RateLimit) (username : List Char)
    (now uninit : Int) : AuthErrorCode × List RateLimit :=
  match rl_scan cfg now username entries with
  | some r => r
  | none =>
    if entries.length < 1000 then
      (((rl_decide cfg now ⟨username.take 31, uninit, 0⟩).1),
        entries ++ [(rl_decide cfg now ⟨username.take 31, uninit, 0⟩).2])
    else
      (AuthErrorCode.AUTH_SUCCESS, entries)

/-- Observable events of one auth_validate_user call, in program order:
the rate-limiter admission check, the fopen of the credential store, the
hash computation, and the hash comparison. -/
inductive AuthEvent where
  | rateCheck
  | storeOpen
  | hashCompute
  | hashCompare
  deriving DecidableEq, Repr

/-- The body of auth_validate_user after the initialization and NULL
checks, on the non-null username and password.  strlen is the character
count (ASCII bytes).  After the rate-limit call the code returns any
non-success code unchanged; after read_password_file it returns any
non-success code unchanged; otherwise it compares the computed digest
with the stored one via CRYPTO_memcmp over HASH_SIZE bytes.  The third
component of the result is the trace of events the call performed. -/
def auth_validate_user_body (sha256 : List Nat → List Nat)
    (store : Option (List (List Char)))
    (now uninit : Int) (st : AuthState) (u p : List Char) :
    AuthErrorCode × AuthState × List AuthEvent :=
  if u.length ≥ MAX_USERNAME_LENGTH ∨ p.length ≥ MAX_PASSWORD_LENGTH then
    (AuthErrorCode.AUTH_ERROR_INVALID_INPUT, st, [])
  else if (validate_rate_limit st.config st.rate_limits u now uninit).1 ≠
      AuthErrorCode.AUTH_SUCCESS then
    ((validate_rate_limit st.config st.rate_limits u now uninit).1,
      { st with rate_limits := (validate_rate_limit st.config st.rate_limits u now uninit).2 },
      [AuthEvent.rateCheck])
  else if (read_password_file store u).1 ≠ AuthErrorCode.AUTH_SUCCESS then
    ((read_password_file store u).1,
      { st with rate_limits := (validate_rate_limit st.config st.rate_limits u now uninit).2 },
      [AuthEvent.rateCheck, AuthEvent.storeOpen])
  else if CRYPTO_memcmp
      (compute_hash sha256 p (((read_password_file store u).2.getD ⟨[], []⟩).salt))
      (((read_password_file store u).2.getD ⟨[], []⟩).hash) HASH_SIZE ≠ 0 then
    (AuthErrorCode.AUTH_ERROR_AUTH_FAILED,
      { st with rate_limits := (validate_rate_limit st.config st.rate_limits u now uninit).2 },
      [AuthEvent.rateCheck, AuthEvent.storeOpen, AuthEvent.hashCompute,
        AuthEvent.hashCompare])
  else
    (AuthErrorCode.AUTH_SUCCESS,
      { st with rate_limits := (validate_rate_limit st.config st.rate_limits u now uninit).2 },
      [AuthEvent.rateCheck, AuthEvent.storeOpen, AuthEvent.hashCompute,
        AuthEvent.hashCompare])

/-- auth_validate_user of secure_auth.c, returning the result code, the
updated global state, and the trace of events the call performed.  The
username and password parameters are none for NULL pointers. -/
def auth_validate_user (sha256 : List Nat → List Nat) (store : Option (List (List Char)))
    (now uninit : Int) (st : AuthState) (username password : Option (List Char)) :
    AuthErrorCode × AuthState × List AuthEvent :=
  if st.initialized = false then (AuthErrorCode.AUTH_ERROR_INITIALIZATION, st, [])
  else
    match username, password with
    | none, _ => (AuthErrorCode.AUTH_ERROR_NULL_POINTER, st, [])
    | some _, none => (AuthErrorCode.AUTH_ERROR_NULL_POINTER, st, [])
    | some u, some p => auth_validate_user_body sha256 store now uninit st u p

/-- Little-endian byte encoding of a 32-bit word, as stored in memory on
the target platform. -/
def u32le (v : Nat) : List Nat :=
  [v % 256, v / 256 % 256, v / 2 ^ 16 % 256, v / 2 ^ 24 % 256]

/-- Little-endian read of len bytes at the given offset of a block of
memory; bytes outside the modelled block read as zero (in C such a read is
out of bounds of the allocation). -/
def read_le (m : List Nat) (off len : Nat) : Nat :=
  (List.range len).foldr (fun i acc => acc * 256 + m.getD (off + i) 0) 0

/-- secure_malloc of secure_auth.c, returning the underlying allocation
(the block at real_ptr): none when size is zero or exceeds DATA_SIZE or
malloc fails; otherwise a four-byte canary, the size user bytes (malloc
memory is uninitialized: the uninit parameter supplies its contents), and
a second four-byte canary.  The user pointer handed back to the caller is
offset four of the block. -/
def secure_malloc (size : Nat) (uninit : List Nat) : Option (List Nat) :=
  if size = 0 ∨ size > DATA_SIZE then none
  else some (u32le AUTH_MEMORY_CANARY ++ padTo size uninit ++ u32le AUTH_MEMORY_CANARY)

/-- Outcome of secure_free: the process abort on a failed canary check, or
deallocation with the given contents after OPENSSL_cleanse. -/
inductive FreeResult where
  | abort
  | freed (remains : List Nat)
  deriving DecidableEq, Repr

/-- secure_free of secure_auth.c on a non-null pointer, acting on the
underlying block (real_ptr is offset zero, ptr is offset four).  The code
reads the start canary at real_ptr, a size_t at real_ptr + sizeof(size_t)
(offset eight, which is inside the user data: secure_malloc never stores a
size there), the end canary at ptr + that value (offset four plus the
value), aborts when either canary read differs from AUTH_MEMORY_CANARY,
and otherwise OPENSSL_cleanse-wipes that many bytes from real_ptr and
frees the block. -/
def secure_free (block : List Nat) : FreeResult :=
  if read_le block 0 4 ≠ AUTH_MEMORY_CANARY ∨
      read_le block (4 + read_le block 8 8) 4 ≠ AUTH_MEMORY_CANARY then
    FreeResult.abort
  else
    FreeResult.freed (List.replicate (min (read_le block 8 8) block.length) 0 ++
      block.drop (read_le block 8 8))

/-- Result of a call that either returns an error code or aborts the
process inside secure_free. -/
inductive CallResult where
  | ret (code : AuthErrorCode)
  | abort
  deriving DecidableEq, Repr

/-- The body of auth_process_input after the initialization and NULL
checks: the strlen bound check, secure_malloc of max_length bytes, the
strncpy of at most max_length - 1 bytes (which zero-pads the copy up to
max_length - 1 and always returns its destination, so the result stays
AUTH_SUCCESS), and the secure_free of the buffer, whose canary check reads
the size word from the copied user data and may abort. -/
def auth_process_input_body (s : List Char) (max_length : Nat)
    (uninit : List Nat) : CallResult :=
  if s.length ≥ max_length then CallResult.ret AuthErrorCode.AUTH_ERROR_BUFFER_OVERFLOW
  else
    match secure_malloc max_length uninit with
    | none => CallResult.ret AuthErrorCode.AUTH_ERROR_MEMORY
    | some _ =>
      match secure_free (u32le AUTH_MEMORY_CANARY ++
          (padTo (max_length - 1) (strBytes s) ++
            (padTo max_length uninit).drop (max_length - 1)) ++
          u32le AUTH_MEMORY_CANARY) with
      | FreeResult.abort => CallResult.abort
      | FreeResult.freed _ => CallResult.ret AuthErrorCode.AUTH_SUCCESS

/-- auth_process_input of secure_auth.c; the input parameter is none for a
NULL pointer. -/
def auth_process_input (st : AuthState) (input : Option (List Char)) (max_length : Nat)
    (uninit : List Nat) : CallResult :=
  if st.initialized = false then CallResult.ret AuthErrorCode.AUTH_ERROR_INITIALIZATION
  else
    match input with
    | none => CallResult.ret AuthErrorCode.AUTH_ERROR_NULL_POINTER
    | some s => auth_process_input_body s max_length uninit

/-- Modelled from the spec: the sanitization charset [A-Za-z0-9_-] that
section 4.5 of the spec requires of usernames (no function of
secure_auth.c implements it). -/
def spec_charset_ok (u : List Char) : Bool :=
  u.all fun c =>
    ('A' ≤ c && c ≤ 'Z') || ('a' ≤ c && c ≤ 'z') || ('0' ≤ c && c ≤ '9') ||
      c == '_' || c == '-'

/-- Modelled from the spec: the username field of a store line, the
characters before the first colon of the line (spec section 6, record
shape username colon salt-hex colon hash-hex).  Used to compare the exact
matching the spec describes with the truncated matching the code performs. -/
def spec_username_field (line : List Char) : List Char :=
  line.takeWhile fun c => c != ':'

/-- The default_config of secure_auth.c (MAX_LOGIN_ATTEMPTS five,
LOGIN_TIMEOUT_SECONDS three hundred). -/
def default_config : AuthConfig :=
  ⟨"/etc/secure_passwd".toList, 5, 300, true⟩

/-- Concrete digest function for witnesses: a fixed 32-byte output. -/
def sha_const : List Nat → List Nat := fun _ => List.replicate 32 0

/-- Sixty-four zero characters, a well-formed all-zero hex field. -/
def zeros64 : List Char := List.replicate 64 '0'

/-- Concrete well-formed store line for the user alice, salt and hash all
zero bytes. -/
def c1line : List Char := "alice".toList ++ ':' :: zeros64 ++ ':' :: zeros64

/-- Concrete initialized engine state with an empty rate-limit table. -/
def c1state : AuthState := ⟨true, default_config, []⟩

/-- A thirty-one character username, the longest auth_validate_user
accepts. -/
def c8u : List Char := List.replicate 31 'a'

/-- Store line whose username field has thirty-two characters; its first
thirty-one characters coincide with c8u.  Salt field all zero, hash field
bytes 0x11. -/
def c8line1 : List Char :=
  List.replicate 32 'a' ++ ':' :: zeros64 ++ ':' :: List.replicate 64 '1'

/-- Store line whose username field is exactly c8u.  Salt field all zero,
hash field bytes 0x22. -/
def c8line2 : List Char :=
  List.replicate 31 'a' ++ ':' :: zeros64 ++ ':' :: List.replicate 64 '2'

/-- Malformed store line for the user bob: long enough, but its salt field
is not hexadecimal. -/
def c8badline : List Char := "bob".toList ++ ':' :: List.replicate 130 'z'

/-- Well-formed store line for the user bob, salt and hash all zero. -/
def c8goodline : List Char := "bob".toList ++ ':' :: zeros64 ++ ':' :: zeros64

/-- The block secure_malloc returns for size sixteen when the caller then
zero-fills the sixteen user bytes. -/
def c6block : List Nat :=
  u32le AUTH_MEMORY_CANARY ++ List.replicate 16 0 ++ u32le AUTH_MEMORY_CANARY

/-- A full rate-limit table: one thousand entries, none of them for the
user bob. -/
def c7entries : List RateLimit := List.replicate 1000 ⟨['x'], 0, 0⟩

/-- Concrete configuration with three maximum attempts and a sixty-second
window. -/
def c4cfg : AuthConfig := ⟨[], 3, 60, true⟩

/-- First concrete validate call of the rate-limit scenario, at time
zero, fresh engine. -/
def c4r1 : AuthErrorCode × AuthState × List AuthEvent :=
  auth_validate_user sha_const (some []) 0 (-5) ⟨true, c4cfg, []⟩
    (some ("bob".toList)) (some ("x".toList))

/-- Second concrete validate call of the scenario, at time one. -/
def c4r2 : AuthErrorCode × AuthState × List AuthEvent :=
  auth_validate_user sha_const (some []) 1 (-5) c4r1.2.1
    (some ("bob".toList)) (some ("x".toList))

/-- Third concrete validate call of the scenario, at time two. -/
def c4r3 : AuthErrorCode × AuthState × List AuthEvent :=
  auth_validate_user sha_const (some []) 2 (-5) c4r2.2.1
    (some ("bob".toList)) (some ("x".toList))

/-- Fourth concrete validate call of the scenario, at time three. -/
def c4r4 : AuthErrorCode × AuthState × List AuthEvent :=
  auth_validate_user sha_const (some []) 3 (-5) c4r3.2.1
    (some ("bob".toList)) (some ("x".toList))

/-- Fifth concrete validate call of the scenario, at time sixty-two,
after the window has elapsed. -/
def c4r5 : AuthErrorCode × AuthState × List AuthEvent :=
  auth_validate_user sha_const (some []) 62 (-5) c4r4.2.1
    (some ("bob".toList)) (some ("x".toList))

/-- Concrete engine state whose rate-limit table already throttles bob at
time one hundred under the default configuration. -/
def c5state : AuthState := ⟨true, default_config, [⟨"bob".toList, 100, 5⟩]⟩

/-- A successful hex-pair loop yields exactly the requested number of
bytes. -/
theorem parse_hex_pairs_length :
    ∀ (n : Nat) (cs : List Char) (l : List Nat),
      parse_hex_pairs cs n = some l → l.length = n := by
  intro n
  induction n with
  | zero =>
    intro cs l h
    simp only [parse_hex_pairs, Option.some.injEq] at h
    rw [← h]
    rfl
  | succ k ih =>
    intro cs l h
    simp only [parse_hex_pairs] at h
    cases hs : sscanf_2hhx cs with
    | none => rw [hs] at h; simp at h
    | some b =>
      cases hr : parse_hex_pairs (cs.drop 2) k with
      | none => rw [hs, hr] at h; simp at h
      | some rest =>
        rw [hs, hr] at h
        simp only [Option.some.injEq] at h
        rw [← h]
        simp [ih _ _ hr]

/-- A record parse_matched_line accepts carries a SALT_SIZE-byte salt and a
HASH_SIZE-byte hash. -/
theorem parse_matched_line_wf (line : List Char) (hd : HashData)
    (h : parse_matched_line line = some hd) :
    hd.salt.length = SALT_SIZE ∧ hd.hash.length = HASH_SIZE := by
  unfold parse_matched_line at h
  split at h
  · simp at h
  · split at h
    · simp at h
    · split at h
      · rename_i salt hsh h1 h2
        simp only [Option.some.injEq] at h
        rw [← h]
        exact ⟨parse_hex_pairs_length _ _ _ h1, parse_hex_pairs_length _ _ _ h2⟩
      · simp at h

/-- A record read_password_file returns with AUTH_SUCCESS is well formed. -/
theorem read_password_file_wf (store : Option (List (List Char))) (u : List Char)
    (hd : HashData)
    (h : read_password_file store u = (AuthErrorCode.AUTH_SUCCESS, some hd)) :
    hd.salt.length = SALT_SIZE ∧ hd.hash.length = HASH_SIZE := by
  unfold read_password_file at h
  split at h
  · simp at h
  · split at h
    · simp at h
    · rename_i l hf
      split at h
      · simp at h
      · rename_i hd2 hp2
        simp only [Prod.mk.injEq, Option.some.injEq] at h
        rw [← h.2]
        exact parse_matched_line_wf l hd2 hp2

/-- read_password_file returns one of the three codes file-access error,
authentication failed, or success. -/
theorem read_password_file_codes (store : Option (List (List Char))) (u : List Char) :
    (read_password_file store u).1 = AuthErrorCode.AUTH_ERROR_FILE_ACCESS ∨
    (read_password_file store u).1 = AuthErrorCode.AUTH_ERROR_AUTH_FAILED ∨
    (read_password_file store u).1 = AuthErrorCode.AUTH_SUCCESS := by
  unfold read_password_file
  split
  · simp
  · split
    · simp
    · split <;> simp

/-- An or of two naturals is zero exactly when both are. -/
theorem lor_eq_zero_iff (m n : Nat) : m ||| n = 0 ↔ m = 0 ∧ n = 0 := by
  constructor
  · intro h
    constructor
    · apply Nat.eq_of_testBit_eq
      intro i
      have h2 : (m ||| n).testBit i = Nat.testBit 0 i := by rw [h]
      rw [Nat.testBit_lor, Nat.zero_testBit] at h2
      rw [Nat.zero_testBit]
      exact (Bool.or_eq_false_iff.mp h2).1
    · apply Nat.eq_of_testBit_eq
      intro i
      have h2 : (m ||| n).testBit i = Nat.testBit 0 i := by rw [h]
      rw [Nat.testBit_lor, Nat.zero_testBit] at h2
      rw [Nat.zero_testBit]
      exact (Bool.or_eq_false_iff.mp h2).2
  · rintro ⟨rfl, rfl⟩
    rfl

/-- An or-fold over a list of naturals is zero exactly when the initial
accumulator and every element are zero. -/
theorem foldl_lor_eq_zero (l : List Nat) :
    ∀ acc : Nat, l.foldl (fun x y => x ||| y) acc = 0 ↔ acc = 0 ∧ ∀ x ∈ l, x = 0 := by
  induction l with
  | nil => intro acc; simp
  | cons a t ih =>
    intro acc
    rw [List.foldl_cons, ih]
    rw [lor_eq_zero_iff]
    constructor
    · rintro ⟨⟨h1, h2⟩, h3⟩
      exact ⟨h1, by intro x hx; rcases List.mem_cons.mp hx with rfl | hx2
                    exacts [h2, h3 x hx2]⟩
    · rintro ⟨h1, h2⟩
      exact ⟨⟨h1, h2 a (List.mem_cons_self a t)⟩,
        fun x hx => h2 x (List.mem_cons_of_mem a hx)⟩

/-- CRYPTO_memcmp reports zero exactly when every one of the first n bytes
of the two buffers agree. -/
theorem CRYPTO_memcmp_eq_zero_iff (a b : List Nat) (n : Nat) :
    CRYPTO_memcmp a b n = 0 ↔ ∀ i < n, a.getD i 0 = b.getD i 0 := by
  unfold CRYPTO_memcmp
  rw [foldl_lor_eq_zero]
  constructor
  · rintro ⟨-, h⟩ i hi
    have := h (a.getD i 0 ^^^ b.getD i 0)
      (List.mem_map.mpr ⟨i, List.mem_range.mpr hi, rfl⟩)
    exact Nat.xor_eq_zero.mp this
  · intro h
    refine ⟨rfl, ?_⟩
    intro x hx
    rcases List.mem_map.mp hx with ⟨i, hi, rfl⟩
    exact Nat.xor_eq_zero.mpr (h i (List.mem_range.mp hi))

/-- Two lists of equal length agree exactly when they agree at every
position read with a default. -/
theorem list_getD_ext (a b : List Nat) (n : Nat) (ha : a.length = n) (hb : b.length = n) :
    (∀ i < n, a.getD i 0 = b.getD i 0) ↔ a = b := by
  constructor
  · intro h
    apply List.ext_getElem (by omega)
    intro i hi1 hi2
    have h2 := h i (by omega)
    rwa [List.getD_eq_getElem?_getD, List.getD_eq_getElem?_getD,
      List.getElem?_eq_getElem hi1, List.getElem?_eq_getElem hi2] at h2
  · rintro rfl i hi
    rfl

/-- The decision block returns either the throttle code or success. -/
theorem rl_decide_codes (cfg : AuthConfig) (now : Int) (e : RateLimit) :
    (rl_decide cfg now e).1 = AuthErrorCode.AUTH_ERROR_RATE_LIMIT ∨
    (rl_decide cfg now e).1 = AuthErrorCode.AUTH_SUCCESS := by
  unfold rl_decide
  split <;> simp

/-- When no table entry carries the username, the search loop finds
nothing. -/
theorem rl_scan_eq_none (cfg : AuthConfig) (now : Int) (u : List Char) :
    ∀ l : List RateLimit, (∀ e ∈ l, e.username ≠ u) → rl_scan cfg now u l = none := by
  intro l
  induction l with
  | nil => intro h; rfl
  | cons e rest ih =>
    intro h
    unfold rl_scan
    rw [if_neg (h e (List.mem_cons_self e rest))]
    rw [ih fun x hx => h x (List.mem_cons_of_mem e hx)]

/-- The search loop stops at the first entry carrying the username and
applies the decision block to it in place. -/
theorem rl_scan_first (cfg : AuthConfig) (now : Int) (u : List Char) :
    ∀ (pre : List RateLimit) (e : RateLimit) (post : List RateLimit),
      (∀ x ∈ pre, x.username ≠ u) → e.username = u →
      rl_scan cfg now u (pre ++ e :: post) =
        some ((rl_decide cfg now e).1, pre ++ (rl_decide cfg now e).2 :: post) := by
  intro pre
  induction pre with
  | nil =>
    intro e post hpre he
    rw [List.nil_append, List.nil_append]
    unfold rl_scan
    rw [if_pos he]
  | cons a t ih =>
    intro e post hpre he
    rw [List.cons_append, List.cons_append]
    unfold rl_scan
    rw [if_neg (hpre a (List.mem_cons_self a t))]
    rw [ih e post (fun x hx => hpre x (List.mem_cons_of_mem a hx)) he]

/-- Any hit of the search loop carries either the throttle code or
success. -/
theorem rl_scan_codes (cfg : AuthConfig) (now : Int) (u : List Char) :
    ∀ (l : List RateLimit) (r : AuthErrorCode × List RateLimit),
      rl_scan cfg now u l = some r →
      r.1 = AuthErrorCode.AUTH_ERROR_RATE_LIMIT ∨ r.1 = AuthErrorCode.AUTH_SUCCESS := by
  intro l
  induction l with
  | nil => intro r h; simp [rl_scan] at h
  | cons e rest ih =>
    intro r h
    unfold rl_scan at h
    by_cases he : e.username = u
    · rw [if_pos he] at h
      simp only [Option.some.injEq] at h
      rw [← h]
      exact rl_decide_codes cfg now e
    · rw [if_neg he] at h
      cases hs : rl_scan cfg now u rest with
      | none => rw [hs] at h; simp at h
      | some r2 =>
        rw [hs] at h
        cases r2 with
        | mk c rest2 =>
          simp only [Option.some.injEq] at h
          rw [← h]
          simpa using ih (c, rest2) hs

/-- validate_rate_limit on a table whose first matching entry is made
explicit: the decision block runs on that entry in place. -/
theorem validate_rate_limit_found (cfg : AuthConfig) (now uninit : Int) (u : List Char)
    (pre : List RateLimit) (e : RateLimit) (post : List RateLimit)
    (hpre : ∀ x ∈ pre, x.username ≠ u) (he : e.username = u) :
    validate_rate_limit cfg (pre ++ e :: post) u now uninit =
      ((rl_decide cfg now e).1, pre ++ (rl_decide cfg now e).2 :: post) := by
  unfold validate_rate_limit
  rw [rl_scan_first cfg now u pre e post hpre he]

/-- validate_rate_limit when no entry matches and the table is full. -/
theorem validate_rate_limit_full (cfg : AuthConfig) (now uninit : Int) (u : List Char)
    (entries : List RateLimit)
    (hnone : ∀ e ∈ entries, e.username ≠ u) (hfull : entries.length = 1000) :
    validate_rate_limit cfg entries u now uninit = (AuthErrorCode.AUTH_SUCCESS, entries) := by
  unfold validate_rate_limit
  rw [rl_scan_eq_none cfg now u entries hnone]
  rw [if_neg (by omega)]

/-- validate_rate_limit when no entry matches and the table has room: a
new entry is appended and the decision block runs on it. -/
theorem validate_rate_limit_new (cfg : AuthConfig) (now uninit : Int) (u : List Char)
    (entries : List RateLimit)
    (hnone : ∀ e ∈ entries, e.username ≠ u) (hroom : entries.length < 1000) :
    validate_rate_limit cfg entries u now uninit =
      ((rl_decide cfg now ⟨u.take 31, uninit, 0⟩).1,
        entries ++ [(rl_decide cfg now ⟨u.take 31, uninit, 0⟩).2]) := by
  unfold validate_rate_limit
  rw [rl_scan_eq_none cfg now u entries hnone]
  rw [if_pos hroom]

/-- validate_rate_limit returns either the throttle code or success. -/
theorem validate_rate_limit_codes (cfg : AuthConfig) (entries : List RateLimit)
    (u : List Char) (now uninit : Int) :
    (validate_rate_limit cfg entries u now uninit).1 =
      AuthErrorCode.AUTH_ERROR_RATE_LIMIT ∨
    (validate_rate_limit cfg entries u now uninit).1 = AuthErrorCode.AUTH_SUCCESS := by
  unfold validate_rate_limit
  split
  · rename_i r hs
    exact rl_scan_codes cfg now u entries r hs
  · split
    · exact rl_decide_codes cfg now _
    · simp

/-- auth_validate_user on an initialized engine and non-null inputs runs
its body. -/
theorem auth_validate_user_some (sha256 : List Nat → List Nat)
    (store : Option (List (List Char))) (now uninit : Int) (st : AuthState) (u p : List Char)
    (hinit : st.initialized = true) :
    auth_validate_user sha256 store now uninit st (some u) (some p) =
      auth_validate_user_body sha256 store now uninit st u p := by
  unfold auth_validate_user
  rw [hinit]
  rfl

/-- auth_validate_user when the admission check does not admit: the
rate-limit code is returned, the state update is the rate-limit table
update, and only the rate check has happened. -/
theorem auth_validate_user_throttled (sha256 : List Nat → List Nat)
    (store : Option (List (List Char))) (now uninit : Int) (st : AuthState) (u p : List Char)
    (hinit : st.initialized = true)
    (hu : u.length < MAX_USERNAME_LENGTH) (hp : p.length < MAX_PASSWORD_LENGTH)
    (h : (validate_rate_limit st.config st.rate_limits u now uninit).1 ≠
      AuthErrorCode.AUTH_SUCCESS) :
    auth_validate_user sha256 store now uninit st (some u) (some p) =
      ((validate_rate_limit st.config st.rate_limits u now uninit).1,
        { st with rate_limits := (validate_rate_limit st.config st.rate_limits u now uninit).2 },
        [AuthEvent.rateCheck]) := by
  rw [auth_validate_user_some sha256 store now uninit st u p hinit]
  unfold auth_validate_user_body
  rw [if_neg (by rw [not_or]; exact ⟨Nat.not_le.mpr hu, Nat.not_le.mpr hp⟩)]
  rw [if_pos h]

/-- auth_validate_user when the admission check admits but the store read
does not succeed: that code is returned unchanged after the rate check and
the store open. -/
theorem auth_validate_user_read_fail (sha256 : List Nat → List Nat)
    (store : Option (List (List Char))) (now uninit : Int) (st : AuthState) (u p : List Char)
    (hinit : st.initialized = true)
    (hu : u.length < MAX_USERNAME_LENGTH) (hp : p.length < MAX_PASSWORD_LENGTH)
    (hadm : (validate_rate_limit st.config st.rate_limits u now uninit).1 =
      AuthErrorCode.AUTH_SUCCESS)
    (hread : (read_password_file store u).1 ≠ AuthErrorCode.AUTH_SUCCESS) :
    auth_validate_user sha256 store now uninit st (some u) (some p) =
      ((read_password_file store u).1,
        { st with rate_limits := (validate_rate_limit st.config st.rate_limits u now uninit).2 },
        [AuthEvent.rateCheck, AuthEvent.storeOpen]) := by
  rw [auth_validate_user_some sha256 store now uninit st u p hinit]
  unfold auth_validate_user_body
  rw [if_neg (by rw [not_or]; exact ⟨Nat.not_le.mpr hu, Nat.not_le.mpr hp⟩)]
  rw [if_neg (not_not_intro hadm)]
  rw [if_pos hread]

/-- auth_validate_user when the admission check admits and the store read
succeeds with a record: the result is the constant-time comparison of the
computed digest with the stored one, after all four events. -/
theorem auth_validate_user_read_ok (sha256 : List Nat → List Nat)
    (store : Option (List (List Char))) (now uninit : Int) (st : AuthState) (u p : List Char)
    (hd : HashData)
    (hinit : st.initialized = true)
    (hu : u.length < MAX_USERNAME_LENGTH) (hp : p.length < MAX_PASSWORD_LENGTH)
    (hadm : (validate_rate_limit st.config st.rate_limits u now uninit).1 =
      AuthErrorCode.AUTH_SUCCESS)
    (hrec : read_password_file store u = (AuthErrorCode.AUTH_SUCCESS, some hd)) :
    auth_validate_user sha256 store now uninit st (some u) (some p) =
      (if CRYPTO_memcmp (compute_hash sha256 p hd.salt) hd.hash HASH_SIZE ≠ 0 then
          AuthErrorCode.AUTH_ERROR_AUTH_FAILED
        else AuthErrorCode.AUTH_SUCCESS,
        { st with rate_limits := (validate_rate_limit st.config st.rate_limits u now uninit).2 },
        [AuthEvent.rateCheck, AuthEvent.storeOpen, AuthEvent.hashCompute,
          AuthEvent.hashCompare]) := by
  rw [auth_validate_user_some sha256 store now uninit st u p hinit]
  unfold auth_validate_user_body
  rw [if_neg (by rw [not_or]; exact ⟨Nat.not_le.mpr hu, Nat.not_le.mpr hp⟩)]
  rw [if_neg (not_not_intro hadm)]
  rw [hrec]
  by_cases hcmp : CRYPTO_memcmp (compute_hash sha256 p hd.salt) hd.hash HASH_SIZE = 0
  · simp [hcmp]
  · simp [hcmp]

/-- find? stops at the first element satisfying the predicate. -/
theorem find?_first_match {α : Type} (p : α → Bool) :
    ∀ (l1 : List α) (x : α) (l2 : List α),
      (∀ y ∈ l1, p y = false) → p x = true →
      (l1 ++ x :: l2).find? p = some x := by
  intro l1
  induction l1 with
  | nil =>
    intro x l2 h hx
    rw [List.nil_append]
    exact List.find?_cons_of_pos l2 hx
  | cons a t ih =>
    intro x l2 h hx
    rw [List.cons_append]
    rw [List.find?_cons_of_neg _ (by simp [h a (List.mem_cons_self a t)])]
    exact ih x l2 (fun y hy => h y (List.mem_cons_of_mem a hy)) hx

/-- An unopenable store yields the file-access error. -/
theorem read_password_file_none (u : List Char) :
    read_password_file none u = (AuthErrorCode.AUTH_ERROR_FILE_ACCESS, none) := rfl

/-- When no line scans to the looked-up username the lookup reports
not-found. -/
theorem read_password_file_not_found (lines : List (List Char)) (u : List Char)
    (h : ∀ l ∈ lines, scan_username l ≠ some u) :
    read_password_file (some lines) u = (AuthErrorCode.AUTH_ERROR_AUTH_FAILED, none) := by
  have hf : lines.find? (fun l => scan_username l == some u) = none :=
    List.find?_eq_none.mpr (fun x hx => by simpa using h x hx)
  simp only [read_password_file, hf]

/-- A success code of read_password_file always comes with a record. -/
theorem read_password_file_success (store : Option (List (List Char))) (u : List Char)
    (h : (read_password_file store u).1 = AuthErrorCode.AUTH_SUCCESS) :
    ∃ hd, read_password_file store u = (AuthErrorCode.AUTH_SUCCESS, some hd) := by
  cases store with
  | none => simp [read_password_file] at h
  | some lines =>
    cases hf : lines.find? (fun l => scan_username l == some u) with
    | none => simp only [read_password_file, hf] at h; exact absurd h (by decide)
    | some l =>
      cases hpm : parse_matched_line l with
      | none => simp only [read_password_file, hf, hpm] at h; exact absurd h (by decide)
      | some hd =>
        refine ⟨hd, ?_⟩
        simp only [read_password_file, hf, hpm]

/-- A fold that both accumulates with an or and counts its steps equals
the plain fold paired with the length of the index list. -/
theorem foldl_step_aux (h : Nat → Nat) :
    ∀ (l : List Nat) (a0 s0 : Nat),
      l.foldl (fun acc i => (acc.1 ||| h i, acc.2 + 1)) (a0, s0) =
        (l.foldl (fun x i => x ||| h i) a0, s0 + l.length) := by
  intro l
  induction l with
  | nil => intro a0 s0; simp
  | cons x t ih =>
    intro a0 s0
    rw [List.foldl_cons, List.foldl_cons, ih, List.length_cons]
    congr 1
    omega

/-- auth_validate_user under the initialization, NULL and length guards
always installs the rate-limit table that the admission check produced. -/
theorem auth_validate_user_state (sha256 : List Nat → List Nat)
    (store : Option (List (List Char))) (now uninit : Int) (st : AuthState) (u p : List Char)
    (hinit : st.initialized = true)
    (hu : u.length < MAX_USERNAME_LENGTH) (hp : p.length < MAX_PASSWORD_LENGTH) :
    (auth_validate_user sha256 store now uninit st (some u) (some p)).2.1 =
      { st with
        rate_limits := (validate_rate_limit st.config st.rate_limits u now uninit).2 } := by
  rw [auth_validate_user_some sha256 store now uninit st u p hinit]
  unfold auth_validate_user_body
  rw [if_neg (by rw [not_or]; exact ⟨Nat.not_le.mpr hu, Nat.not_le.mpr hp⟩)]
  split
  · rfl
  · split
    · rfl
    · split <;> rfl

/-- When the admission check admits, auth_validate_user never returns the
rate-limit code. -/
theorem auth_validate_user_not_rate_limited (sha256 : List Nat → List Nat)
    (store : Option (List (List Char))) (now uninit : Int) (st : AuthState) (u p : List Char)
    (hinit : st.initialized = true)
    (hu : u.length < MAX_USERNAME_LENGTH) (hp : p.length < MAX_PASSWORD_LENGTH)
    (hadm : (validate_rate_limit st.config st.rate_limits u now uninit).1 =
      AuthErrorCode.AUTH_SUCCESS) :
    (auth_validate_user sha256 store now uninit st (some u) (some p)).1 ≠
      AuthErrorCode.AUTH_ERROR_RATE_LIMIT := by
  rw [auth_validate_user_some sha256 store now uninit st u p hinit]
  unfold auth_validate_user_body
  rw [if_neg (by rw [not_or]; exact ⟨Nat.not_le.mpr hu, Nat.not_le.mpr hp⟩)]
  rw [if_neg (not_not_intro hadm)]
  split
  · rcases read_password_file_codes store u with h | h | h <;> simp [h]
  · split <;> simp

/-- auth_process_input on an initialized engine and a non-null input runs
its body. -/
theorem auth_process_input_some (st : AuthState) (s : List Char) (max_length : Nat)
    (uninit : List Nat) (hinit : st.initialized = true) :
    auth_process_input st (some s) max_length uninit =
      auth_process_input_body s max_length uninit := by
  unfold auth_process_input
  rw [hinit]
  rfl

/-- C1: for an initialized engine, non-null username and password within
the length limits, where the rate limiter admits the attempt and the
store holds a well-formed record for the username, auth_validate_user
returns AUTH_SUCCESS exactly when the stored hash equals the digest
computed from the password and the stored salt; it returns
AUTH_ERROR_AUTH_FAILED when the digest differs, and it returns the very
same AUTH_ERROR_AUTH_FAILED code when no store line carries the username,
so a wrong password and a nonexistent user are not distinguishable by
code. -/
theorem C1_success_iff_hash_match (sha256 : List Nat → List Nat)
    (store : Option (List (List Char))) (now uninit : Int) (st : AuthState) (u p : List Char)
    (hinit : st.initialized = true)
    (hu : u.length < MAX_USERNAME_LENGTH) (hp : p.length < MAX_PASSWORD_LENGTH)
    (hadm : (validate_rate_limit st.config st.rate_limits u now uninit).1 =
      AuthErrorCode.AUTH_SUCCESS) :
    (∀ hd : HashData,
      read_password_file store u = (AuthErrorCode.AUTH_SUCCESS, some hd) →
      (compute_hash sha256 p hd.salt).length = HASH_SIZE →
      (((auth_validate_user sha256 store now uninit st (some u) (some p)).1 =
          AuthErrorCode.AUTH_SUCCESS ↔ compute_hash sha256 p hd.salt = hd.hash) ∧
        (compute_hash sha256 p hd.salt ≠ hd.hash →
          (auth_validate_user sha256 store now uninit st (some u) (some p)).1 =
            AuthErrorCode.AUTH_ERROR_AUTH_FAILED))) ∧
    (∀ lines, store = some lines → (∀ l ∈ lines, scan_username l ≠ some u) →
      (auth_validate_user sha256 store now uninit st (some u) (some p)).1 =
        AuthErrorCode.AUTH_ERROR_AUTH_FAILED) := by
  constructor
  · intro hd hrec hlen
    have hwf := read_password_file_wf store u hd hrec
    have hiff : CRYPTO_memcmp (compute_hash sha256 p hd.salt) hd.hash HASH_SIZE = 0 ↔
        compute_hash sha256 p hd.salt = hd.hash := by
      rw [CRYPTO_memcmp_eq_zero_iff]
      exact list_getD_ext _ _ HASH_SIZE hlen hwf.2
    rw [auth_validate_user_read_ok sha256 store now uninit st u p hd hinit hu hp hadm hrec]
    by_cases hcmp : CRYPTO_memcmp (compute_hash sha256 p hd.salt) hd.hash HASH_SIZE = 0
    · rw [if_neg (not_not_intro hcmp)]
      exact ⟨⟨fun _ => hiff.mp hcmp, fun _ => rfl⟩, fun hne => absurd (hiff.mp hcmp) hne⟩
    · rw [if_pos hcmp]
      constructor
      · constructor
        · intro hres; exact absurd hres (by simp)
        · intro heq; exact absurd (hiff.mpr heq) hcmp
      · intro _; rfl
  · intro lines hs hnone
    subst hs
    rw [auth_validate_user_read_fail sha256 (some lines) now uninit st u p hinit hu hp hadm
      (by rw [read_password_file_not_found lines u hnone]; simp)]
    rw [read_password_file_not_found lines u hnone]

set_option maxRecDepth 100000 in
/-- C1 witness: on a concrete engine, alice with the all-zero salt and
hash record validates successfully under the constant digest function. -/
theorem C1_witness :
    read_password_file (some [c1line]) ("alice".toList) =
      (AuthErrorCode.AUTH_SUCCESS, some ⟨List.replicate 32 0, List.replicate 32 0⟩) ∧
    (auth_validate_user sha_const (some [c1line]) 0 0 c1state (some ("alice".toList))
        (some ("pw".toList))).1 = AuthErrorCode.AUTH_SUCCESS :=
  ⟨by decide,
    ((C1_success_iff_hash_match sha_const (some [c1line]) 0 0 c1state ("alice".toList)
        ("pw".toList) (by decide) (by decide) (by decide) (by decide)).1
      ⟨List.replicate 32 0, List.replicate 32 0⟩ (by decide) (by decide)).1.mpr (by decide)⟩

/-- C2 counterexample: the username a-exclamation lies outside the charset
of the spec, yet an initialized engine does not return
AUTH_ERROR_INVALID_INPUT for it: the attempt is admitted, the credential
store is consulted (storeOpen occurs in the trace) and the call returns
AUTH_ERROR_AUTH_FAILED. -/
theorem C2_counterexample :
    spec_charset_ok ("a!".toList) = false ∧
    (auth_validate_user sha_const (some []) 0 0 c1state (some ("a!".toList))
        (some ("x".toList))).1 = AuthErrorCode.AUTH_ERROR_AUTH_FAILED ∧
    (auth_validate_user sha_const (some []) 0 0 c1state (some ("a!".toList))
        (some ("x".toList))).1 ≠ AuthErrorCode.AUTH_ERROR_INVALID_INPUT ∧
    AuthEvent.storeOpen ∈
      (auth_validate_user sha_const (some []) 0 0 c1state (some ("a!".toList))
        (some ("x".toList))).2.2 := by
  decide

/-- C2 (amended): auth_validate_user performs no charset sanitization.
For every initialized engine and non-null username and password within
the length limits - whatever characters the username contains - the call
never returns AUTH_ERROR_INVALID_INPUT, and whenever the rate limiter
admits the attempt the credential store is consulted for that username. -/
theorem C2_no_charset_check (sha256 : List Nat → List Nat)
    (store : Option (List (List Char))) (now uninit : Int) (st : AuthState) (u p : List Char)
    (hinit : st.initialized = true)
    (hu : u.length < MAX_USERNAME_LENGTH) (hp : p.length < MAX_PASSWORD_LENGTH) :
    (auth_validate_user sha256 store now uninit st (some u) (some p)).1 ≠
      AuthErrorCode.AUTH_ERROR_INVALID_INPUT ∧
    ((validate_rate_limit st.config st.rate_limits u now uninit).1 =
        AuthErrorCode.AUTH_SUCCESS →
      AuthEvent.storeOpen ∈
        (auth_validate_user sha256 store now uninit st (some u) (some p)).2.2) := by
  constructor
  · rcases validate_rate_limit_codes st.config st.rate_limits u now uninit with hrl | hrl
    · rw [auth_validate_user_throttled sha256 store now uninit st u p hinit hu hp
        (by rw [hrl]; simp)]
      rw [hrl]
      simp
    · rcases read_password_file_codes store u with hrd | hrd | hrd
      · rw [auth_validate_user_read_fail sha256 store now uninit st u p hinit hu hp hrl
          (by rw [hrd]; simp)]
        rw [hrd]
        simp
      · rw [auth_validate_user_read_fail sha256 store now uninit st u p hinit hu hp hrl
          (by rw [hrd]; simp)]
        rw [hrd]
        simp
      · obtain ⟨hd, hrec⟩ := read_password_file_success store u hrd
        rw [auth_validate_user_read_ok sha256 store now uninit st u p hd hinit hu hp hrl hrec]
        by_cases hcmp : CRYPTO_memcmp (compute_hash sha256 p hd.salt) hd.hash HASH_SIZE ≠ 0
        · rw [if_pos hcmp]; simp
        · rw [if_neg hcmp]; simp
  · intro hrl
    rcases read_password_file_codes store u with hrd | hrd | hrd
    · rw [auth_validate_user_read_fail sha256 store now uninit st u p hinit hu hp hrl
        (by rw [hrd]; simp)]
      simp
    · rw [auth_validate_user_read_fail sha256 store now uninit st u p hinit hu hp hrl
        (by rw [hrd]; simp)]
      simp
    · obtain ⟨hd, hrec⟩ := read_password_file_success store u hrd
      rw [auth_validate_user_read_ok sha256 store now uninit st u p hd hinit hu hp hrl hrec]
      simp

/-- C2 witness: the amended theorem applied at the out-of-charset username
a-exclamation on a concrete initialized engine. -/
theorem C2_witness :
    c1state.initialized = true ∧
    (auth_validate_user sha_const (some []) 0 0 c1state (some ("a!".toList))
        (some ("x".toList))).1 ≠ AuthErrorCode.AUTH_ERROR_INVALID_INPUT ∧
    AuthEvent.storeOpen ∈
      (auth_validate_user sha_const (some []) 0 0 c1state (some ("a!".toList))
        (some ("x".toList))).2.2 :=
  ⟨by decide,
    (C2_no_charset_check sha_const (some []) 0 0 c1state ("a!".toList) ("x".toList)
      (by decide) (by decide) (by decide)).1,
    (C2_no_charset_check sha_const (some []) 0 0 c1state ("a!".toList) ("x".toList)
      (by decide) (by decide) (by decide)).2 (by decide)⟩

/-- C3 counterexample: on the same initialized engine and admitted
request, an unopenable store surfaces as AUTH_ERROR_FILE_ACCESS while an
open store without the user surfaces as AUTH_ERROR_AUTH_FAILED - the two
lookup failures yield different result codes, so the caller can
distinguish them. -/
theorem C3_counterexample :
    (auth_validate_user sha_const none 0 0 c1state (some ("bob".toList))
        (some ("x".toList))).1 = AuthErrorCode.AUTH_ERROR_FILE_ACCESS ∧
    (auth_validate_user sha_const (some []) 0 0 c1state (some ("bob".toList))
        (some ("x".toList))).1 = AuthErrorCode.AUTH_ERROR_AUTH_FAILED ∧
    AuthErrorCode.AUTH_ERROR_FILE_ACCESS ≠ AuthErrorCode.AUTH_ERROR_AUTH_FAILED := by
  decide

/-- C3 (amended): for an initialized engine and admitted, well-formed
request, the user-not-found case surfaces as AUTH_ERROR_AUTH_FAILED but
the store-cannot-be-opened case surfaces as AUTH_ERROR_FILE_ACCESS: the
caller can distinguish the two by the returned code. -/
theorem C3_store_unavailable_distinguishable (sha256 : List Nat → List Nat)
    (store : Option (List (List Char))) (now uninit : Int) (st : AuthState) (u p : List Char)
    (hinit : st.initialized = true)
    (hu : u.length < MAX_USERNAME_LENGTH) (hp : p.length < MAX_PASSWORD_LENGTH)
    (hadm : (validate_rate_limit st.config st.rate_limits u now uninit).1 =
      AuthErrorCode.AUTH_SUCCESS) :
    (store = none →
      (auth_validate_user sha256 store now uninit st (some u) (some p)).1 =
        AuthErrorCode.AUTH_ERROR_FILE_ACCESS) ∧
    (∀ lines, store = some lines → (∀ l ∈ lines, scan_username l ≠ some u) →
      (auth_validate_user sha256 store now uninit st (some u) (some p)).1 =
        AuthErrorCode.AUTH_ERROR_AUTH_FAILED) ∧
    AuthErrorCode.AUTH_ERROR_FILE_ACCESS ≠ AuthErrorCode.AUTH_ERROR_AUTH_FAILED := by
  refine ⟨?_, ?_, by decide⟩
  · rintro rfl
    rw [auth_validate_user_read_fail sha256 none now uninit st u p hinit hu hp hadm
      (by rw [read_password_file_none u]; simp)]
    rw [read_password_file_none u]
  · intro lines hs hnone
    subst hs
    rw [auth_validate_user_read_fail sha256 (some lines) now uninit st u p hinit hu hp hadm
      (by rw [read_password_file_not_found lines u hnone]; simp)]
    rw [read_password_file_not_found lines u hnone]

/-- C3 witness: the amended theorem applied to a concrete engine, once
with an unopenable store and once with an empty store. -/
theorem C3_witness :
    c1state.initialized = true ∧
    (auth_validate_user sha_const none 0 0 c1state (some ("bob".toList))
        (some ("x".toList))).1 = AuthErrorCode.AUTH_ERROR_FILE_ACCESS ∧
    (auth_validate_user sha_const (some []) 0 0 c1state (some ("bob".toList))
        (some ("x".toList))).1 = AuthErrorCode.AUTH_ERROR_AUTH_FAILED :=
  ⟨by decide,
    (C3_store_unavailable_distinguishable sha_const none 0 0 c1state ("bob".toList)
      ("x".toList) (by decide) (by decide) (by decide) (by decide)).1 rfl,
    (C3_store_unavailable_distinguishable sha_const (some []) 0 0 c1state ("bob".toList)
      ("x".toList) (by decide) (by decide) (by decide) (by decide)).2.1 [] rfl
      (by intro l hl; exact absurd hl (List.not_mem_nil l))⟩

/-- C4: for a username with an existing rate-limit entry the admission
check returns the throttle code exactly when the elapsed time since
last_attempt is below the window and attempt_count has reached the
maximum, and otherwise increments attempt_count, stamps last_attempt with
the current time and admits; and in the concrete scenario with three
maximum attempts and a sixty-second window, the fourth validate call for
the same username within sixty seconds returns AUTH_ERROR_RATE_LIMIT
regardless of the password, while a later call after the window has
elapsed is admitted again. -/
theorem C4_rate_limit_window :
    (∀ (cfg : AuthConfig) (now uninit : Int) (u : List Char)
        (pre : List RateLimit) (e : RateLimit) (post : List RateLimit),
      (∀ x ∈ pre, x.username ≠ u) → e.username = u →
      ((now - e.last_attempt < (cfg.login_timeout : Int) ∧
          e.attempt_count ≥ cfg.max_login_attempts →
        validate_rate_limit cfg (pre ++ e :: post) u now uninit =
          (AuthErrorCode.AUTH_ERROR_RATE_LIMIT, pre ++ e :: post)) ∧
        (¬ (now - e.last_attempt < (cfg.login_timeout : Int) ∧
            e.attempt_count ≥ cfg.max_login_attempts) →
          validate_rate_limit cfg (pre ++ e :: post) u now uninit =
            (AuthErrorCode.AUTH_SUCCESS,
              pre ++ { e with attempt_count := (e.attempt_count + 1) % 2 ^ 32,
                              last_attempt := now } :: post)))) ∧
    (∀ (sha256 : List Nat → List Nat) (store : Option (List (List Char)))
        (cfg : AuthConfig) (u p : List Char) (t1 t2 t3 t4 t5 uninit : Int),
      cfg.max_login_attempts = 3 → cfg.login_timeout = 60 →
      u.length < MAX_USERNAME_LENGTH → p.length < MAX_PASSWORD_LENGTH →
      t1 ≤ t2 → t2 ≤ t3 → t3 ≤ t4 → t4 - t1 < 60 → t4 ≤ t5 → 60 ≤ t5 - t3 →
      ∀ r1 r2 r3 r4 r5 : AuthErrorCode × AuthState × List AuthEvent,
        r1 = auth_validate_user sha256 store t1 uninit ⟨true, cfg, []⟩
          (some u) (some p) →
        r2 = auth_validate_user sha256 store t2 uninit r1.2.1 (some u) (some p) →
        r3 = auth_validate_user sha256 store t3 uninit r2.2.1 (some u) (some p) →
        r4 = auth_validate_user sha256 store t4 uninit r3.2.1 (some u) (some p) →
        r5 = auth_validate_user sha256 store t5 uninit r4.2.1 (some u) (some p) →
        r4.1 = AuthErrorCode.AUTH_ERROR_RATE_LIMIT ∧
        r5.1 ≠ AuthErrorCode.AUTH_ERROR_RATE_LIMIT) := by
  constructor
  · intro cfg now uninit u pre e post hpre he
    constructor
    · intro hcond
      rw [validate_rate_limit_found cfg now uninit u pre e post hpre he]
      unfold rl_decide
      rw [if_pos hcond]
    · intro hcond
      rw [validate_rate_limit_found cfg now uninit u pre e post hpre he]
      unfold rl_decide
      rw [if_neg hcond]
  · intro sha256 store cfg u p t1 t2 t3 t4 t5 uninit hmax htime hu hp
      h12 h23 h34 h41 h45 h53 r1 r2 r3 r4 r5 e1 e2 e3 e4 e5
    have htake : u.take 31 = u := List.take_of_length_le (by
      have h2 := hu
      simp only [MAX_USERNAME_LENGTH] at h2
      omega)
    have hnil : ∀ x : RateLimit, x ∈ ([] : List RateLimit) → x.username ≠ u :=
      fun x hx => absurd hx (List.not_mem_nil x)
    have hv1 : validate_rate_limit cfg [] u t1 uninit =
        (AuthErrorCode.AUTH_SUCCESS, [⟨u, t1, 1⟩]) := by
      rw [validate_rate_limit_new cfg t1 uninit u [] hnil (by decide)]
      unfold rl_decide
      rw [if_neg (by rw [hmax]
                     exact fun hc => absurd (show (0 : Nat) >= 3 from hc.2) (by omega))]
      rw [htake]
      norm_num
    have hone : ∀ x : RateLimit, x ∈ ([] : List RateLimit) → x.username ≠ u := hnil
    have hv2 : validate_rate_limit cfg [⟨u, t1, 1⟩] u t2 uninit =
        (AuthErrorCode.AUTH_SUCCESS, [⟨u, t2, 2⟩]) := by
      have hfound := validate_rate_limit_found cfg t2 uninit u [] ⟨u, t1, 1⟩ [] hnil rfl
      simp only [List.nil_append] at hfound
      rw [hfound]
      unfold rl_decide
      rw [if_neg (by rw [hmax]
                     exact fun hc => absurd (show (1 : Nat) >= 3 from hc.2) (by omega))]
      norm_num
    have hv3 : validate_rate_limit cfg [⟨u, t2, 2⟩] u t3 uninit =
        (AuthErrorCode.AUTH_SUCCESS, [⟨u, t3, 3⟩]) := by
      have hfound := validate_rate_limit_found cfg t3 uninit u [] ⟨u, t2, 2⟩ [] hnil rfl
      simp only [List.nil_append] at hfound
      rw [hfound]
      unfold rl_decide
      rw [if_neg (by rw [hmax]
                     exact fun hc => absurd (show (2 : Nat) >= 3 from hc.2) (by omega))]
      norm_num
    have hv4 : validate_rate_limit cfg [⟨u, t3, 3⟩] u t4 uninit =
        (AuthErrorCode.AUTH_ERROR_RATE_LIMIT, [⟨u, t3, 3⟩]) := by
      have hfound := validate_rate_limit_found cfg t4 uninit u [] ⟨u, t3, 3⟩ [] hnil rfl
      simp only [List.nil_append] at hfound
      rw [hfound]
      unfold rl_decide
      rw [if_pos (by rw [hmax, htime]
                     exact ⟨show t4 - t3 < ((60 : Nat) : Int) by omega,
                       show (3 : Nat) >= 3 by omega⟩)]
    have hv5 : validate_rate_limit cfg [⟨u, t3, 3⟩] u t5 uninit =
        (AuthErrorCode.AUTH_SUCCESS, [⟨u, t5, 4⟩]) := by
      have hfound := validate_rate_limit_found cfg t5 uninit u [] ⟨u, t3, 3⟩ [] hnil rfl
      simp only [List.nil_append] at hfound
      rw [hfound]
      unfold rl_decide
      rw [if_neg (by rw [hmax, htime]
                     exact fun hc =>
                       absurd (show t5 - t3 < ((60 : Nat) : Int) from hc.1) (by omega))]
      norm_num
    have hst1 : r1.2.1 = ⟨true, cfg, [⟨u, t1, 1⟩]⟩ := by
      rw [e1, auth_validate_user_state sha256 store t1 uninit ⟨true, cfg, []⟩ u p rfl hu hp]
      simp [hv1]
    have hst2 : r2.2.1 = ⟨true, cfg, [⟨u, t2, 2⟩]⟩ := by
      rw [e2, hst1,
        auth_validate_user_state sha256 store t2 uninit ⟨true, cfg, [⟨u, t1, 1⟩]⟩ u p rfl hu hp]
      simp [hv2]
    have hst3 : r3.2.1 = ⟨true, cfg, [⟨u, t3, 3⟩]⟩ := by
      rw [e3, hst2,
        auth_validate_user_state sha256 store t3 uninit ⟨true, cfg, [⟨u, t2, 2⟩]⟩ u p rfl hu hp]
      simp [hv3]
    have h4 : r4.1 = AuthErrorCode.AUTH_ERROR_RATE_LIMIT := by
      rw [e4, hst3]
      rw [auth_validate_user_throttled sha256 store t4 uninit ⟨true, cfg, [⟨u, t3, 3⟩]⟩ u p
        rfl hu hp (by simp [hv4])]
      simp [hv4]
    have hst4 : r4.2.1 = ⟨true, cfg, [⟨u, t3, 3⟩]⟩ := by
      rw [e4, hst3,
        auth_validate_user_state sha256 store t4 uninit ⟨true, cfg, [⟨u, t3, 3⟩]⟩ u p rfl hu hp]
      simp [hv4]
    have h5 : r5.1 ≠ AuthErrorCode.AUTH_ERROR_RATE_LIMIT := by
      rw [e5, hst4]
      exact auth_validate_user_not_rate_limited sha256 store t5 uninit
        ⟨true, cfg, [⟨u, t3, 3⟩]⟩ u p rfl hu hp (by simp [hv5])
    exact ⟨h4, h5⟩

set_option maxRecDepth 100000 in
/-- C4 witness: the concrete five-call scenario for bob with three
maximum attempts and a sixty-second window, at times zero, one, two,
three and sixty-two. -/
theorem C4_witness :
    c4cfg.max_login_attempts = 3 ∧ c4cfg.login_timeout = 60 ∧
    validate_rate_limit c4cfg [⟨"bob".toList, 0, 3⟩] ("bob".toList) 30 0 =
      (AuthErrorCode.AUTH_ERROR_RATE_LIMIT, [⟨"bob".toList, 0, 3⟩]) ∧
    c4r4.1 = AuthErrorCode.AUTH_ERROR_RATE_LIMIT ∧
    c4r5.1 ≠ AuthErrorCode.AUTH_ERROR_RATE_LIMIT :=
  ⟨by decide, by decide,
    (C4_rate_limit_window.1 c4cfg 30 0 ("bob".toList) [] ⟨"bob".toList, 0, 3⟩ []
      (by intro x hx; exact absurd hx (List.not_mem_nil x)) rfl).1 (by decide),
    (C4_rate_limit_window.2 sha_const (some []) c4cfg ("bob".toList) ("x".toList)
      0 1 2 3 62 (-5) (by decide) (by decide) (by decide) (by decide)
      (by decide) (by decide) (by decide) (by decide) (by decide) (by decide)
      c4r1 c4r2 c4r3 c4r4 c4r5 rfl rfl rfl rfl rfl).1,
    (C4_rate_limit_window.2 sha_const (some []) c4cfg ("bob".toList) ("x".toList)
      0 1 2 3 62 (-5) (by decide) (by decide) (by decide) (by decide)
      (by decide) (by decide) (by decide) (by decide) (by decide) (by decide)
      c4r1 c4r2 c4r3 c4r4 c4r5 rfl rfl rfl rfl rfl).2⟩

/-- C5: whenever the rate limiter throttles the request of an initialized
engine with non-null inputs within the length limits, auth_validate_user
returns AUTH_ERROR_RATE_LIMIT and its event trace is exactly the rate
check: the credential store is never opened and no hash is ever computed -
the admission check strictly precedes lookup and hashing. -/
theorem C5_throttle_short_circuits (sha256 : List Nat → List Nat)
    (store : Option (List (List Char))) (now uninit : Int) (st : AuthState) (u p : List Char)
    (hinit : st.initialized = true)
    (hu : u.length < MAX_USERNAME_LENGTH) (hp : p.length < MAX_PASSWORD_LENGTH)
    (hthr : (validate_rate_limit st.config st.rate_limits u now uninit).1 =
      AuthErrorCode.AUTH_ERROR_RATE_LIMIT) :
    (auth_validate_user sha256 store now uninit st (some u) (some p)).1 =
      AuthErrorCode.AUTH_ERROR_RATE_LIMIT ∧
    (auth_validate_user sha256 store now uninit st (some u) (some p)).2.2 =
      [AuthEvent.rateCheck] ∧
    AuthEvent.storeOpen ∉
      (auth_validate_user sha256 store now uninit st (some u) (some p)).2.2 ∧
    AuthEvent.hashCompute ∉
      (auth_validate_user sha256 store now uninit st (some u) (some p)).2.2 := by
  rw [auth_validate_user_throttled sha256 store now uninit st u p hinit hu hp
    (by rw [hthr]; simp)]
  rw [hthr]
  refine ⟨rfl, rfl, by simp, by simp⟩

/-- C5 witness: a concrete engine whose table already throttles bob at
time one hundred. -/
theorem C5_witness :
    (validate_rate_limit c5state.config c5state.rate_limits ("bob".toList) 100 0).1 =
      AuthErrorCode.AUTH_ERROR_RATE_LIMIT ∧
    (auth_validate_user sha_const (some []) 100 0 c5state (some ("bob".toList))
        (some ("x".toList))).2.2 = [AuthEvent.rateCheck] :=
  ⟨by decide,
    (C5_throttle_short_circuits sha_const (some []) 100 0 c5state ("bob".toList)
      ("x".toList) (by decide) (by decide) (by decide) (by decide)).2.1⟩

set_option maxRecDepth 100000 in
/-- C6: code-bug evaluation.  secure_malloc rejects size zero and a size
beyond DATA_SIZE, and it does write the sentinel at both ends of a
sixteen-byte allocation (block offsets zero and twenty); but secure_free
on that very allocation, with its sixteen user bytes zeroed by the
caller, aborts: it locates the end sentinel and the wipe length through a
size word it reads at block offset eight - inside the user data - which
secure_malloc never stored, so the uncorrupted allocation is reported as
corrupted. -/
theorem C6_secure_free_misreads_size :
    secure_malloc 0 (List.replicate 16 0) = none ∧
    secure_malloc 1025 (List.replicate 1025 0) = none ∧
    secure_malloc 16 (List.replicate 16 0) = some c6block ∧
    read_le c6block 0 4 = AUTH_MEMORY_CANARY ∧
    read_le c6block 20 4 = AUTH_MEMORY_CANARY ∧
    secure_free c6block = FreeResult.abort := by
  decide

/-- C7: for a username with no entry in a rate-limit table already at its
capacity of one thousand entries, validate_rate_limit returns AUTH_SUCCESS
and leaves the table unchanged - the attempt is admitted without being
tracked or throttled. -/
theorem C7_full_table_admits_untracked (cfg : AuthConfig) (entries : List RateLimit)
    (u : List Char) (now uninit : Int)
    (hfull : entries.length = 1000)
    (hnew : ∀ e ∈ entries, e.username ≠ u) :
    validate_rate_limit cfg entries u now uninit = (AuthErrorCode.AUTH_SUCCESS, entries) :=
  validate_rate_limit_full cfg now uninit u entries hnew hfull

set_option maxRecDepth 100000 in
/-- C7 witness: a concrete full table of one thousand entries and the new
user bob. -/
theorem C7_witness :
    c7entries.length = 1000 ∧
    validate_rate_limit default_config c7entries ("bob".toList) 5 7 =
      (AuthErrorCode.AUTH_SUCCESS, c7entries) :=
  ⟨by rw [c7entries, List.length_replicate],
    C7_full_table_admits_untracked default_config c7entries ("bob".toList) 5 7
      (by rw [c7entries, List.length_replicate])
      (by intro e he
          simp only [c7entries] at he
          rw [List.eq_of_mem_replicate he]
          decide)⟩

set_option maxRecDepth 100000 in
/-- C8 counterexample: with the thirty-one character username c8u, the
lookup stops at a first line whose username field has thirty-two
characters - a field that does not match the username exactly - and
returns that record (hash bytes 0x11), although the next line is exactly
the record for c8u (hash bytes 0x22). -/
theorem C8_counterexample :
    spec_username_field c8line1 ≠ c8u ∧
    spec_username_field c8line2 = c8u ∧
    parse_matched_line c8line2 =
      some ⟨List.replicate 32 0, List.replicate 32 0x22⟩ ∧
    read_password_file (some [c8line1, c8line2]) c8u =
      (AuthErrorCode.AUTH_SUCCESS, some ⟨List.replicate 32 0, List.replicate 32 0x11⟩) := by
  decide

/-- C8 (amended): the lookup stops at the first line whose username field
truncated to its leading thirty-one characters equals the looked-up
username; when that line is malformed the lookup reports not-found - the
pair AUTH_ERROR_AUTH_FAILED and no record - even when a later line holds
a well-formed record for the same username, and when that first line is
well formed its record is returned. -/
theorem C8_first_match_masks (lines1 lines2 : List (List Char)) (L u : List Char)
    (hpre : ∀ l ∈ lines1, scan_username l ≠ some u)
    (hmatch : scan_username L = some u) :
    (parse_matched_line L = none →
      read_password_file (some (lines1 ++ L :: lines2)) u =
        (AuthErrorCode.AUTH_ERROR_AUTH_FAILED, none)) ∧
    (∀ hd, parse_matched_line L = some hd →
      read_password_file (some (lines1 ++ L :: lines2)) u =
        (AuthErrorCode.AUTH_SUCCESS, some hd)) := by
  have hfind : (lines1 ++ L :: lines2).find? (fun l => scan_username l == some u) = some L :=
    find?_first_match _ lines1 L lines2 (fun y hy => by simpa using hpre y hy)
      (by simpa using hmatch)
  constructor
  · intro hbad
    simp only [read_password_file, hfind, hbad]
  · intro hd hgood
    simp only [read_password_file, hfind, hgood]

set_option maxRecDepth 100000 in
/-- C8 witness: a malformed first record for bob masks a later well-formed
one - the lookup reports not-found. -/
theorem C8_witness :
    scan_username c8badline = some ("bob".toList) ∧
    parse_matched_line c8badline = none ∧
    parse_matched_line c8goodline =
      some ⟨List.replicate 32 0, List.replicate 32 0⟩ ∧
    read_password_file (some ([] ++ c8badline :: [c8goodline])) ("bob".toList) =
      (AuthErrorCode.AUTH_ERROR_AUTH_FAILED, none) :=
  ⟨by decide, by decide, by decide,
    (C8_first_match_masks [] [c8goodline] c8badline ("bob".toList)
      (by intro l hl; exact absurd hl (List.not_mem_nil l))
      (by decide)).1 (by decide)⟩

/-- C9: the comparison of the computed digest against the stored hash in
auth_validate_user is CRYPTO_memcmp; its instrumented form examines
exactly n byte positions for every pair of buffers - a count independent
of the buffer contents and in particular of where they first differ, so
it cannot short-circuit - while computing the very same accumulated
value, and it reports equality exactly when all n bytes agree. -/
theorem C9_constant_time_compare (a b : List Nat) (n : Nat) :
    (CRYPTO_memcmp_steps a b n).2 = n ∧
    (CRYPTO_memcmp_steps a b n).1 = CRYPTO_memcmp a b n ∧
    (CRYPTO_memcmp a b n = 0 ↔ ∀ i < n, a.getD i 0 = b.getD i 0) := by
  refine ⟨?_, ?_, CRYPTO_memcmp_eq_zero_iff a b n⟩
  · unfold CRYPTO_memcmp_steps
    rw [foldl_step_aux (fun i => a.getD i 0 ^^^ b.getD i 0) (List.range n) 0 0]
    simp
  · unfold CRYPTO_memcmp_steps CRYPTO_memcmp
    rw [foldl_step_aux (fun i => a.getD i 0 ^^^ b.getD i 0) (List.range n) 0 0]
    rw [List.foldl_map]

/-- C10: for an initialized engine and a non-null input strictly shorter
than max_length, auth_process_input returns the memory allocation error
whenever max_length exceeds DATA_SIZE (the cap secure_malloc enforces),
even though the input itself is within bounds; and it returns AUTH_SUCCESS
only when max_length is positive and at most DATA_SIZE. -/
theorem C10_allocation_cap (st : AuthState) (s : List Char) (max_length : Nat)
    (uninit : List Nat)
    (hinit : st.initialized = true) (hlen : s.length < max_length) :
    (max_length > DATA_SIZE →
      auth_process_input st (some s) max_length uninit =
        CallResult.ret AuthErrorCode.AUTH_ERROR_MEMORY) ∧
    (auth_process_input st (some s) max_length uninit =
        CallResult.ret AuthErrorCode.AUTH_SUCCESS →
      0 < max_length ∧ max_length ≤ DATA_SIZE) := by
  have hbig : max_length > DATA_SIZE →
      auth_process_input st (some s) max_length uninit =
        CallResult.ret AuthErrorCode.AUTH_ERROR_MEMORY := by
    intro hgt
    rw [auth_process_input_some st s max_length uninit hinit]
    unfold auth_process_input_body
    rw [if_neg (Nat.not_le.mpr hlen)]
    rw [show secure_malloc max_length uninit = none from by
      unfold secure_malloc; rw [if_pos (Or.inr hgt)]]
  refine ⟨hbig, ?_⟩
  intro hsucc
  by_cases hle : max_length ≤ DATA_SIZE
  · exact ⟨by omega, hle⟩
  · rw [hbig (Nat.not_le.mp hle)] at hsucc
    exact absurd hsucc (by decide)

/-- C10 witness: a three-character input with a two-thousand-byte
max_length is within bounds yet yields the memory allocation error. -/
theorem C10_witness :
    ("abc".toList).length < 2000 ∧
    auth_process_input c1state (some ("abc".toList)) 2000 [] =
      CallResult.ret AuthErrorCode.AUTH_ERROR_MEMORY :=
  ⟨by decide,
    (C10_allocation_cap c1state ("abc".toList) 2000 [] (by decide) (by decide)).1
      (by decide)⟩

end SecureAuth
